import Mathlib

/-!
Shallow embedding of the MLB-Trajectory-Calculator core
(`mlbtc/coordinates.py`, `mlbtc/trajectory/drag.py`,
`mlbtc/trajectory/environment.py`, `mlbtc/trajectory/projectile.py`).

Modelling conventions:
* A numpy float is modelled as `Option ℝ`: `some x` is the finite real `x`
  and `none` stands for IEEE `nan` (`np.nan`).  IEEE infinities are not
  modelled; no theorem below divides by zero or otherwise manufactures one.
* A numpy 1-D array is a `List (Option ℝ)`; a 0-D numpy scalar (such as the
  value of an inner product of two 1-D arrays) is `NpVal.scalar`.
* A raised Python exception is `Except.error` carrying the exception class.
* Python evaluation order (left-to-right operator chains, statement order
  inside `__init__`) is preserved through the `Except` monad.
-/

/-- Python exception classes that the embedded code can raise.  `shapeError`
is present only because the specification's error taxonomy names a
`ShapeError`; no class of that name exists anywhere in the source, which
raises the builtin `ValueError` for shape mismatches. -/
inductive PyErr
  | valueError
  | attributeError
  | typeError
  | shapeError
  deriving DecidableEq

/-- A numpy value as passed to `VectorND.__init__`: either a 1-D array
(shape `(len,)`) or a 0-D scalar (shape `()`). -/
inductive NpVal
  | arr (xs : List (Option ℝ))
  | scalar (x : Option ℝ)

/-- The concrete vector classes of the source: `Vector2D`, `Vector3D` and
their subclasses `Velocity`, `Acceleration`, `Position`, `DragForce`
(`Vector3D` subclasses) and `Wind` (a `Vector2D` subclass). -/
inductive VecTag
  | vector2D
  | vector3D
  | velocity
  | acceleration
  | position
  | dragForce
  | wind
  deriving DecidableEq

/-- The class attribute `n` of each concrete vector class. -/
def VecTag.n : VecTag → Nat
  | .vector2D => 2
  | .wind => 2
  | _ => 3

/-- Python `isinstance(other, type(self))`: `t.isSubclass s` holds when the
class tagged `t` is `s` itself or a subclass of `s`. -/
def VecTag.isSubclass (t s : VecTag) : Bool :=
  t = s
    || (s = .vector3D
        && (t = .velocity || t = .acceleration || t = .position || t = .dragForce))
    || (s = .vector2D && t = .wind)

/-- State of a `VectorND` instance: its concrete class and the backing
array `self._vector`. -/
structure PyVec where
  tag : VecTag
  data : List (Option ℝ)

/-- Lift a unary real function over numpy floats; `nan` propagates. -/
def liftF (f : ℝ → ℝ) : Option ℝ → Option ℝ := Option.map f

/-- Lift a binary real function over numpy floats; `nan` propagates. -/
def liftF2 (f : ℝ → ℝ → ℝ) : Option ℝ → Option ℝ → Option ℝ := Option.map₂ f

/-- The seven arithmetic dunder operators of `VectorND`
(`__add__ __sub__ __mul__ __truediv__ __floordiv__ __mod__ __pow__`). -/
inductive PyOp
  | add
  | sub
  | mul
  | div
  | floordiv
  | mod
  | pow
  deriving DecidableEq

/-- Scalar semantics of each operator, as numpy computes it on floats
(`//` is `floor(a / b)`, `%` is `a - b * floor(a / b)`, `**` is real
exponentiation). -/
noncomputable def PyOp.interp : PyOp → ℝ → ℝ → ℝ
  | .add => fun a b => a + b
  | .sub => fun a b => a - b
  | .mul => fun a b => a * b
  | .div => fun a b => a / b
  | .floordiv => fun a b => (⌊a / b⌋ : ℝ)
  | .mod => fun a b => a - b * (⌊a / b⌋ : ℝ)
  | .pow => fun a b => a ^ b

/-- `VectorND.__init__(self, vector)` (`coordinates.py` lines 229-232):
raise `ValueError` unless `vector.shape == (self.n,)`; a 0-D numpy scalar
has shape `()` and is always rejected. -/
def VectorND.init (tag : VecTag) (v : NpVal) : Except PyErr PyVec :=
  match v with
  | .arr xs => if xs.length = tag.n then .ok ⟨tag, xs⟩ else .error .valueError
  | .scalar _ => .error .valueError

/-- Right operand of a `VectorND` dunder operator: another vector instance,
a plain Python scalar, or a raw 1-D numpy array. -/
inductive Operand
  | vec (w : PyVec)
  | scalar (c : ℝ)
  | arr (ys : List (Option ℝ))

/-- numpy broadcasting of a binary ufunc over two 1-D arrays: equal lengths
combine index-wise, a length-1 operand is repeated, and any other pair of
lengths raises `ValueError`. -/
def npBroadcast (f : Option ℝ → Option ℝ → Option ℝ) (xs ys : List (Option ℝ)) :
    Except PyErr (List (Option ℝ)) :=
  if xs.length = ys.length then .ok (List.zipWith f xs ys)
  else if ys.length = 1 then .ok (xs.map fun x => f x (ys.headD none))
  else if xs.length = 1 then .ok (ys.map fun y => f (xs.headD none) y)
  else .error .valueError

/-- The common body of the seven arithmetic dunder operators
(`coordinates.py` lines 237-275):
`type(self)(self.vector OP (other.vector if isinstance(other, type(self)) else other))`.
When `other` is a vector but not an instance of `type(self)`, numpy treats
it as an opaque Python object and the element-wise operation raises
`TypeError` because `VectorND` defines no reflected operators. -/
noncomputable def PyVec.binop (op : PyOp) (self : PyVec) (other : Operand) :
    Except PyErr PyVec :=
  match other with
  | .vec w =>
      if w.tag.isSubclass self.tag then
        npBroadcast (liftF2 op.interp) self.data w.data >>= fun r =>
          VectorND.init self.tag (.arr r)
      else .error .typeError
  | .scalar c =>
      VectorND.init self.tag (.arr (self.data.map fun x => liftF2 op.interp x (some c)))
  | .arr ys =>
      npBroadcast (liftF2 op.interp) self.data ys >>= fun r =>
        VectorND.init self.tag (.arr r)

/-- nan-propagating sum of a 1-D numpy array. -/
noncomputable def npSum (xs : List (Option ℝ)) : Option ℝ :=
  xs.foldr (liftF2 (fun a b => a + b)) (some 0)

/-- `xs @ ys` for two 1-D numpy arrays: the 0-D scalar inner product when
the lengths agree, otherwise a `ValueError` (core-dimension mismatch). -/
noncomputable def npMatmul1D (xs ys : List (Option ℝ)) : Except PyErr (Option ℝ) :=
  if xs.length = ys.length then .ok (npSum (List.zipWith (liftF2 (fun a b => a * b)) xs ys))
  else .error .valueError

/-- `VectorND.__matmul__` (`coordinates.py` lines 252-255):
`type(self)(self.vector @ (other.vector if isinstance(other, type(self)) else other))`.
For a same-type operand the inner product is a 0-D scalar, which the
constructor's shape check rejects.  numpy's `matmul` itself raises
`ValueError` on a plain scalar operand. -/
noncomputable def PyVec.matmul (self : PyVec) (other : Operand) : Except PyErr PyVec :=
  match other with
  | .vec w =>
      if w.tag.isSubclass self.tag then
        npMatmul1D self.data w.data >>= fun s => VectorND.init self.tag (.scalar s)
      else .error .typeError
  | .scalar _ => .error .valueError
  | .arr ys =>
      npMatmul1D self.data ys >>= fun s => VectorND.init self.tag (.scalar s)

/-!
Coordinate conversion (`coordinates.py`, classes `CoordinatesND`,
`Coordinates2D`, `Coordinates3D`).

Each conversion property on the Python side is a pure function of the
instance state `(self._coordinates, self._system)`, so the state is
modelled as a structure and each property as a function of it.  Stored
coordinates and view results are `Fin n → Option ℝ` (numpy arrays of
floats, `none` = `np.nan`).
-/

/-- State of a `Coordinates2D` instance: `self._coordinates` and
`self._system`. -/
structure Coordinates2D where
  coords : Fin 2 → Option ℝ
  system : String

/-- State of a `Coordinates3D` instance. -/
structure Coordinates3D where
  coords : Fin 3 → Option ℝ
  system : String

/-- Class attribute `Coordinates2D.systems`. -/
def Coordinates2D.systems : List String := ["cartesian", "polar"]

/-- Class attribute `Coordinates3D.systems`. -/
def Coordinates3D.systems : List String := ["cartesian", "cylindrical", "spherical"]

/-- Python `self.__setattr__(name, NotImplemented)` on a `CoordinatesND`
instance: when `name` is a class `property` (a data descriptor with no
setter), `property.__set__` raises `AttributeError`; otherwise the
attribute is stored in the instance dict and the call succeeds. -/
def pySetattr (properties : List String) (name : String) : Except PyErr Unit :=
  if name ∈ properties then .error .attributeError else .ok ()

/-- The loop `for attr in self.systems: self.__setattr__(attr, NotImplemented)`
at the end of `CoordinatesND.__init__` (`coordinates.py` lines 23-24); the
first raising iteration aborts the constructor. -/
def pySetattrLoop (properties : List String) : List String → Except PyErr Unit
  | [] => .ok ()
  | a :: rest => pySetattr properties a >>= fun _ => pySetattrLoop properties rest

/-- `CoordinatesND.__init__` as inherited by `Coordinates2D`
(`coordinates.py` lines 16-24): shape check, system-tag check, field
assignment, then the `__setattr__` loop over the declared system names,
each of which is a read-only `property` of the class. -/
def Coordinates2D.init (cs : List (Option ℝ)) (system : String) :
    Except PyErr Coordinates2D :=
  match cs with
  | [a, b] =>
      if system ∉ Coordinates2D.systems then .error .valueError
      else
        pySetattrLoop Coordinates2D.systems Coordinates2D.systems >>= fun _ =>
          .ok ⟨![a, b], system⟩
  | _ => .error .valueError

/-- `CoordinatesND.__init__` as inherited by `Coordinates3D`. -/
def Coordinates3D.init (cs : List (Option ℝ)) (system : String) :
    Except PyErr Coordinates3D :=
  match cs with
  | [a, b, c] =>
      if system ∉ Coordinates3D.systems then .error .valueError
      else
        pySetattrLoop Coordinates3D.systems Coordinates3D.systems >>= fun _ =>
          .ok ⟨![a, b, c], system⟩
  | _ => .error .valueError

/-- Property `Coordinates2D.cartesian` (`coordinates.py` lines 49-68). -/
noncomputable def Coordinates2D.cartesian (s : Coordinates2D) : Fin 2 → Option ℝ :=
  if s.system = "cartesian" then s.coords
  else if s.system = "polar" then
    ![liftF2 (fun a b => a * b) (s.coords 0) (liftF Real.cos (s.coords 1)),
      liftF2 (fun a b => a * b) (s.coords 0) (liftF Real.sin (s.coords 1))]
  else ![none, none]

/-- Property `Coordinates2D.polar` (`coordinates.py` lines 70-88);
`(self._coordinates ** 2).sum()` is the sum of the squared components and
the angle uses the single-argument arctangent of `y / x`. -/
noncomputable def Coordinates2D.polar (s : Coordinates2D) : Fin 2 → Option ℝ :=
  if s.system = "cartesian" then
    ![liftF Real.sqrt
        (liftF2 (fun a b => a + b)
          (liftF (fun x => x ^ 2) (s.coords 0))
          (liftF (fun x => x ^ 2) (s.coords 1))),
      liftF Real.arctan (liftF2 (fun a b => a / b) (s.coords 1) (s.coords 0))]
  else if s.system = "polar" then s.coords
  else ![none, none]

/-- Property `Coordinates3D.cartesian` (`coordinates.py` lines 111-144). -/
noncomputable def Coordinates3D.cartesian (s : Coordinates3D) : Fin 3 → Option ℝ :=
  if s.system = "cartesian" then s.coords
  else if s.system = "cylindrical" then
    ![liftF2 (fun a b => a * b) (s.coords 0) (liftF Real.cos (s.coords 1)),
      liftF2 (fun a b => a * b) (s.coords 0) (liftF Real.sin (s.coords 1)),
      s.coords 2]
  else if s.system = "spherical" then
    ![liftF2 (fun a b => a * b)
        (liftF2 (fun a b => a * b) (s.coords 0) (liftF Real.sin (s.coords 1)))
        (liftF Real.cos (s.coords 2)),
      liftF2 (fun a b => a * b)
        (liftF2 (fun a b => a * b) (s.coords 0) (liftF Real.sin (s.coords 1)))
        (liftF Real.sin (s.coords 2)),
      liftF2 (fun a b => a * b) (s.coords 0) (liftF Real.cos (s.coords 1))]
  else ![none, none, none]

/-- Property `Coordinates3D.cylindrical` (`coordinates.py` lines 146-180). -/
noncomputable def Coordinates3D.cylindrical (s : Coordinates3D) : Fin 3 → Option ℝ :=
  if s.system = "cartesian" then
    ![liftF Real.sqrt
        (liftF2 (fun a b => a + b)
          (liftF (fun x => x ^ 2) (s.coords 0))
          (liftF (fun x => x ^ 2) (s.coords 1))),
      liftF Real.arctan (liftF2 (fun a b => a / b) (s.coords 1) (s.coords 0)),
      s.coords 2]
  else if s.system = "cylindrical" then s.coords
  else if s.system = "spherical" then
    ![liftF2 (fun a b => a * b) (s.coords 0) (liftF Real.sin (s.coords 1)),
      s.coords 2,
      liftF2 (fun a b => a * b) (s.coords 0) (liftF Real.cos (s.coords 1))]
  else ![none, none, none]

/-- Property `Coordinates3D.spherical` (`coordinates.py` lines 182-216).
In the cylindrical branch the source computes
`np.sqrt(self._coordinates[0] * 2 + self._coordinates[2] ** 2)` — the
first component is multiplied by `2`, not squared, although the inline
comment above that line reads `r = sqrt(rho ** 2 + z ** 2)`. -/
noncomputable def Coordinates3D.spherical (s : Coordinates3D) : Fin 3 → Option ℝ :=
  if s.system = "cartesian" then
    ![liftF Real.sqrt
        (liftF2 (fun a b => a + b)
          (liftF2 (fun a b => a + b)
            (liftF (fun x => x ^ 2) (s.coords 0))
            (liftF (fun x => x ^ 2) (s.coords 1)))
          (liftF (fun x => x ^ 2) (s.coords 2))),
      liftF Real.arccos
        (liftF2 (fun a b => a / b) (s.coords 2)
          (liftF Real.sqrt
            (liftF2 (fun a b => a + b)
              (liftF2 (fun a b => a + b)
                (liftF (fun x => x ^ 2) (s.coords 0))
                (liftF (fun x => x ^ 2) (s.coords 1)))
              (liftF (fun x => x ^ 2) (s.coords 2))))),
      liftF2 (fun a b => a * b) (liftF Real.sign (s.coords 1))
        (liftF Real.arccos
          (liftF2 (fun a b => a / b) (s.coords 0)
            (liftF Real.sqrt
              (liftF2 (fun a b => a + b)
                (liftF (fun x => x ^ 2) (s.coords 0))
                (liftF (fun x => x ^ 2) (s.coords 1))))))]
  else if s.system = "cylindrical" then
    ![liftF Real.sqrt
        (liftF2 (fun a b => a + b)
          (liftF2 (fun a b => a * b) (s.coords 0) (some 2))
          (liftF (fun x => x ^ 2) (s.coords 2))),
      liftF Real.arctan (liftF2 (fun a b => a / b) (s.coords 0) (s.coords 2)),
      s.coords 1]
  else if s.system = "spherical" then s.coords
  else ![none, none, none]

/-- Python attribute lookup on a `Coordinates2D` instance restricted to the
conversion-view interface: the class's `property` attributes are
`cartesian` and `polar`; a name that is neither of these nor any other
attribute of the object raises `AttributeError`.  The non-view class
attributes (`n`, `systems`) and the private fields are outside this
interface and are not modelled. -/
noncomputable def Coordinates2D.getattrView (s : Coordinates2D) (name : String) :
    Except PyErr (Fin 2 → Option ℝ) :=
  if name = "cartesian" then .ok s.cartesian
  else if name = "polar" then .ok s.polar
  else .error .attributeError

/-- Python attribute lookup on a `Coordinates3D` instance restricted to the
conversion-view interface (`cartesian`, `cylindrical`, `spherical`). -/
noncomputable def Coordinates3D.getattrView (s : Coordinates3D) (name : String) :
    Except PyErr (Fin 3 → Option ℝ) :=
  if name = "cartesian" then .ok s.cartesian
  else if name = "cylindrical" then .ok s.cylindrical
  else if name = "spherical" then .ok s.spherical
  else .error .attributeError

/-!
Physical vector types (`trajectory/projectile.py`, `trajectory/drag.py`,
`trajectory/environment.py`).
-/

/-- Property `Vector2D.radius` (`coordinates.py` lines 314-318):
`self.coordinates.polar[0]`, where `self.coordinates` is
`Coordinates2D(self.vector, "cartesian")`. -/
noncomputable def Vector2D.radius (v : PyVec) : Except PyErr (Option ℝ) :=
  Coordinates2D.init v.data "cartesian" >>= fun c => .ok (c.polar 0)

/-- Property `Vector2D.azimuth` (`coordinates.py` lines 320-324):
`self.coordinates.polar[1]`. -/
noncomputable def Vector2D.azimuth (v : PyVec) : Except PyErr (Option ℝ) :=
  Coordinates2D.init v.data "cartesian" >>= fun c => .ok (c.polar 1)

/-- Property `Vector3D.central_radius` (`coordinates.py` lines 357-361):
`self.coordinates.spherical[0]`, where `self.coordinates` is
`Coordinates3D(self.vector, "cartesian")`. -/
noncomputable def Vector3D.central_radius (v : PyVec) : Except PyErr (Option ℝ) :=
  Coordinates3D.init v.data "cartesian" >>= fun c => .ok (c.spherical 0)

/-- `Wind.__init__(self, v_w, phi_w)` (`environment.py` lines 69-70):
`super().__init__(Coordinates2D(np.array([v_w, phi_w]), "polar").cartesian)`. -/
noncomputable def Wind.init (v_w phi_w : ℝ) : Except PyErr PyVec :=
  Coordinates2D.init [some v_w, some phi_w] "polar" >>= fun c =>
    VectorND.init .wind (.arr [c.cartesian 0, c.cartesian 1])

/-- Python `rho * vec` for a float `rho` and a `VectorND` instance:
`float.__mul__` returns `NotImplemented` and `VectorND` defines no
`__rmul__`, so the interpreter raises `TypeError` whatever the operands
are. -/
def scalarMulVec (_rho : ℝ) (_v : PyVec) : Except PyErr PyVec :=
  .error .typeError

/-- `DragForce.__init__(self, rho, v, a, c_d)` (`drag.py` lines 58-59):
`super().__init__(rho * v ** 2 * c_d * a / 2)`, evaluated with Python
precedence and left-to-right association as
`(((rho * (v ** 2)) * c_d) * a) / 2`.  The first multiplication is
float-times-vector and raises `TypeError` (see `scalarMulVec`), so the
later steps are unreachable; they are kept to preserve the evaluation
order of the source expression.  The final step is the `Vector3D`
constructor call on the resulting data. -/
noncomputable def DragForce.init (rho : ℝ) (v : PyVec) (a c_d : ℝ) :
    Except PyErr PyVec :=
  PyVec.binop .pow v (.scalar 2) >>= fun v2 =>
    scalarMulVec rho v2 >>= fun t1 =>
      PyVec.binop .mul t1 (.scalar c_d) >>= fun t2 =>
        PyVec.binop .mul t2 (.scalar a) >>= fun t3 =>
          PyVec.binop .div t3 (.scalar 2) >>= fun t4 =>
            VectorND.init .dragForce (.arr t4.data)

/-- State of a `Temperature` instance (`environment.py` lines 12-17):
`self._value` and `self._unit`. -/
structure Temperature where
  value : ℝ
  unit : String

/-- Property `Temperature.celsius` (`environment.py` lines 19-29).  The
kelvin branch returns `self._value + 273.15` (the source adds the offset
instead of subtracting it).  For a unit matching none of the branches the
Python function falls off the end and returns `None`, modelled as `none`. -/
noncomputable def Temperature.celsius (t : Temperature) : Option ℝ :=
  if t.unit = "celsius" then some t.value
  else if t.unit = "fahrenheit" then some (5 / 9 * (t.value - 32))
  else if t.unit = "kelvin" then some (t.value + 273.15)
  else none

/-- Property `Temperature.fahrenheit` (`environment.py` lines 31-41); the
kelvin branch likewise adds 273.15 instead of subtracting it. -/
noncomputable def Temperature.fahrenheit (t : Temperature) : Option ℝ :=
  if t.unit = "celsius" then some (9 / 5 * t.value + 32)
  else if t.unit = "fahrenheit" then some t.value
  else if t.unit = "kelvin" then some (9 / 5 * (t.value + 273.15) + 32)
  else none

/-- Property `Temperature.kelvin` (`environment.py` lines 43-55); the
unrecognized-unit branch returns `np.nan`, which this model conflates with
the `None` of the other two properties as `none`. -/
noncomputable def Temperature.kelvin (t : Temperature) : Option ℝ :=
  if t.unit = "celsius" then some (t.value + 273.15)
  else if t.unit = "fahrenheit" then some (5 / 9 * (t.value - 32) + 273.15)
  else if t.unit = "kelvin" then some t.value
  else none

/-!
Helper lemmas (shared; none of these is a claim's theorem).
-/

/-- Bind on `Except` applied to a success. -/
@[simp]
theorem except_bind_ok {α β : Type} (a : α) (f : α → Except PyErr β) :
    (Except.ok a : Except PyErr α) >>= f = f a := rfl

/-- Bind on `Except` applied to a raised exception. -/
@[simp]
theorem except_bind_error {α β : Type} (e : PyErr) (f : α → Except PyErr β) :
    (Except.error e : Except PyErr α) >>= f = .error e := rfl

/-- Every class is an instance of itself. -/
theorem VecTag.isSubclass_self (t : VecTag) : t.isSubclass t = true := by
  cases t <;> rfl

/-!
Claim theorems.
-/

/-- C1: for every construction with valid arguments (a coordinate list of
the declared length and a system tag in the declared set), the
`CoordinatesND` constructor inherited by `Coordinates2D` and
`Coordinates3D` raises `AttributeError` (it assigns `NotImplemented` to
each declared system name, and those names are read-only class properties
with no setter); consequently every operation that builds a coordinate
view — `Vector2D.radius`, `Vector2D.azimuth`, `Vector3D.central_radius`,
`Wind` construction — fails the same way. -/
theorem coordinates_constructor_attribute_error :
    (∀ (a b : Option ℝ) (s : String), s ∈ Coordinates2D.systems →
        Coordinates2D.init [a, b] s = .error .attributeError)
    ∧ (∀ (a b c : Option ℝ) (s : String), s ∈ Coordinates3D.systems →
        Coordinates3D.init [a, b, c] s = .error .attributeError)
    ∧ (∀ v_w phi_w : ℝ, Wind.init v_w phi_w = .error .attributeError)
    ∧ (∀ (t : VecTag) (a b : Option ℝ),
        Vector2D.radius ⟨t, [a, b]⟩ = .error .attributeError)
    ∧ (∀ (t : VecTag) (a b : Option ℝ),
        Vector2D.azimuth ⟨t, [a, b]⟩ = .error .attributeError)
    ∧ (∀ (t : VecTag) (a b c : Option ℝ),
        Vector3D.central_radius ⟨t, [a, b, c]⟩ = .error .attributeError) := by
  have h2 : ∀ (a b : Option ℝ) (s : String), s ∈ Coordinates2D.systems →
      Coordinates2D.init [a, b] s = .error .attributeError := by
    intro a b s hs
    simp only [Coordinates2D.init]
    rw [if_neg (by simpa using hs)]
    rfl
  have h3 : ∀ (a b c : Option ℝ) (s : String), s ∈ Coordinates3D.systems →
      Coordinates3D.init [a, b, c] s = .error .attributeError := by
    intro a b c s hs
    simp only [Coordinates3D.init]
    rw [if_neg (by simpa using hs)]
    rfl
  refine ⟨h2, h3, ?_, ?_, ?_, ?_⟩
  · intro v_w phi_w
    simp only [Wind.init]
    rw [h2 _ _ "polar" (by simp [Coordinates2D.systems])]
    rfl
  · intro t a b
    simp only [Vector2D.radius]
    rw [h2 _ _ "cartesian" (by simp [Coordinates2D.systems])]
    rfl
  · intro t a b
    simp only [Vector2D.azimuth]
    rw [h2 _ _ "cartesian" (by simp [Coordinates2D.systems])]
    rfl
  · intro t a b c
    simp only [Vector3D.central_radius]
    rw [h3 _ _ _ "cartesian" (by simp [Coordinates3D.systems])]
    rfl

/-- C1 witness: the constructor failure at concrete valid inputs. -/
theorem coordinates_constructor_attribute_error_witness :
    Coordinates2D.init [some 1, some 2] "cartesian" = .error .attributeError
    ∧ Coordinates3D.init [some 1, some 2, some 3] "spherical" = .error .attributeError
    ∧ Wind.init 5 1 = .error .attributeError :=
  ⟨coordinates_constructor_attribute_error.1 (some 1) (some 2) "cartesian"
      (by simp [Coordinates2D.systems]),
   coordinates_constructor_attribute_error.2.1 (some 1) (some 2) (some 3) "spherical"
      (by simp [Coordinates3D.systems]),
   coordinates_constructor_attribute_error.2.2.1 5 1⟩

/-- C6 counterexample: a 3-vector built from a 2-length sequence raises
the builtin `ValueError`, not the specification's `ShapeError` (no class
of that name exists in the source). -/
theorem shape_mismatch_value_error_example :
    VectorND.init .vector3D (.arr [some 1, some 2]) = .error .valueError
    ∧ VectorND.init .vector3D (.arr [some 1, some 2, some 3, some 4]) = .error .valueError
    ∧ (Except.error PyErr.valueError : Except PyErr PyVec) ≠ .error .shapeError :=
  ⟨rfl, rfl, by simp⟩

/-- C6 amended: constructing a vector or a coordinates object from a
sequence whose length does not match the required dimensionality raises
`ValueError` (the same exception class the tag check uses; the source
defines no `ShapeError`), and the error is surfaced to the caller. -/
theorem shape_mismatch_value_error :
    (∀ (tag : VecTag) (xs : List (Option ℝ)), xs.length ≠ tag.n →
        VectorND.init tag (.arr xs) = .error .valueError)
    ∧ (∀ (cs : List (Option ℝ)) (s : String), cs.length ≠ 2 →
        Coordinates2D.init cs s = .error .valueError)
    ∧ (∀ (cs : List (Option ℝ)) (s : String), cs.length ≠ 3 →
        Coordinates3D.init cs s = .error .valueError) := by
  refine ⟨?_, ?_, ?_⟩
  · intro tag xs h
    simp only [VectorND.init]
    rw [if_neg h]
  · intro cs s h
    match cs with
    | [] => rfl
    | [a] => rfl
    | [a, b] => exact absurd rfl h
    | a :: b :: c :: t => rfl
  · intro cs s h
    match cs with
    | [] => rfl
    | [a] => rfl
    | [a, b] => rfl
    | [a, b, c] => exact absurd rfl h
    | a :: b :: c :: d :: t => rfl

/-- C6 witness: the amended behaviour at concrete wrong-length inputs. -/
theorem shape_mismatch_value_error_witness :
    VectorND.init .velocity (.arr [some 1, some 2]) = .error .valueError
    ∧ Coordinates2D.init [some 1] "cartesian" = .error .valueError
    ∧ Coordinates3D.init [some 1] "cartesian" = .error .valueError :=
  ⟨shape_mismatch_value_error.1 .velocity [some 1, some 2] (by decide),
   shape_mismatch_value_error.2.1 [some 1] "cartesian" (by decide),
   shape_mismatch_value_error.2.2 [some 1] "cartesian" (by decide)⟩

/-- C5 counterexample: for two `Vector3D` operands, `u @ v` raises
`ValueError` (the scalar inner product fails the constructor's shape
check) instead of returning a wrapped instance. -/
theorem matmul_same_type_raises_example :
    PyVec.matmul ⟨.vector3D, [some 1, some 2, some 3]⟩
        (.vec ⟨.vector3D, [some 4, some 5, some 6]⟩)
      = .error .valueError := rfl

/-- C5 amended: for two vectors of the same concrete type, `u @ v`
computes the scalar inner product and passes that 0-D scalar to the
constructor of the same concrete type, whose shape check rejects it; the
operation therefore raises `ValueError` and never returns a wrapped
instance. -/
theorem matmul_same_type_value_error (u w : PyVec)
    (h : w.tag.isSubclass u.tag = true) :
    PyVec.matmul u (.vec w) = .error .valueError := by
  simp only [PyVec.matmul]
  rw [h]
  simp only [if_true]
  by_cases hl : u.data.length = w.data.length
  · simp only [npMatmul1D]
    rw [if_pos hl]
    rfl
  · simp only [npMatmul1D]
    rw [if_neg hl]
    rfl

/-- C5 witness: the amended behaviour for two concrete `Velocity`
vectors. -/
theorem matmul_same_type_value_error_witness :
    PyVec.matmul ⟨.velocity, [some 1, some 0, some 0]⟩
        (.vec ⟨.velocity, [some 2, some 0, some 0]⟩)
      = .error .valueError :=
  matmul_same_type_value_error _ _ (by decide)

/-- C10: requesting the view for the system that is already stored returns
the exact stored values unchanged, for every declared system of both
dimensionalities. -/
theorem identity_view_returns_stored :
    (∀ c : Fin 2 → Option ℝ,
        Coordinates2D.cartesian ⟨c, "cartesian"⟩ = c
        ∧ Coordinates2D.polar ⟨c, "polar"⟩ = c)
    ∧ (∀ c : Fin 3 → Option ℝ,
        Coordinates3D.cartesian ⟨c, "cartesian"⟩ = c
        ∧ Coordinates3D.cylindrical ⟨c, "cylindrical"⟩ = c
        ∧ Coordinates3D.spherical ⟨c, "spherical"⟩ = c) :=
  ⟨fun _ => ⟨rfl, rfl⟩, fun _ => ⟨rfl, rfl, rfl⟩⟩

/-- C2 counterexample: at the specification's own concrete input the
`DragForce` constructor raises `TypeError` — `rho * (v ** 2)` multiplies a
float by a `VectorND` and no reflected multiplication exists — so it does
not yield the force vector `[0.0756, 0, 0]`. -/
theorem drag_force_example_raises :
    DragForce.init 1.2 ⟨.velocity, [some 10, some 0, some 0]⟩ 0.0042 0.3
      = .error .typeError
    ∧ (Except.error PyErr.typeError : Except PyErr PyVec)
        ≠ .ok ⟨.dragForce, [some 0.0756, some 0, some 0]⟩ :=
  ⟨rfl, by simp⟩

/-- C2 amended: for every fluid density `rho`, 3-component vector `v`,
area `a` and drag coefficient `c_d`, `DragForce(rho, v, a, c_d)` raises
`TypeError`: the constructor expression multiplies the float `rho` by the
vector `v ** 2` and `VectorND` defines no reflected multiplication, so no
`DragForce` instance is ever constructed (and the element-wise square
`v ** 2` would in any case not preserve component signs). -/
theorem drag_force_always_type_error (rho a c_d : ℝ) (v : PyVec)
    (h : v.data.length = v.tag.n) :
    DragForce.init rho v a c_d = .error .typeError := by
  simp only [DragForce.init, PyVec.binop, VectorND.init, List.length_map, h,
    if_true, except_bind_ok, scalarMulVec, except_bind_error]

/-- C2 witness: the amended behaviour at the specification's concrete
input. -/
theorem drag_force_always_type_error_witness :
    DragForce.init 1.2 ⟨.velocity, [some 10, some 0, some 0]⟩ 0.0042 0.3
      = .error .typeError :=
  drag_force_always_type_error 1.2 0.0042 0.3 ⟨.velocity, [some 10, some 0, some 0]⟩ rfl

/-- C9: each of the seven arithmetic operators, applied to a right operand
that is a vector of the same concrete type, acts element-wise between
matching indices; applied to a scalar or to a same-length raw array it
acts with broadcast semantics; and in every case the result is a new
instance of the same concrete vector type (a `Velocity` plus a `Velocity`
or a scalar is again a `Velocity`). -/
theorem operator_elementwise_type_preserving (op : PyOp) (u w : PyVec) (c : ℝ)
    (ys : List (Option ℝ)) (htag : w.tag = u.tag)
    (hu : u.data.length = u.tag.n) (hw : w.data.length = w.tag.n)
    (hy : ys.length = u.data.length) :
    PyVec.binop op u (.vec w)
        = .ok ⟨u.tag, List.zipWith (liftF2 op.interp) u.data w.data⟩
    ∧ PyVec.binop op u (.scalar c)
        = .ok ⟨u.tag, u.data.map fun x => liftF2 op.interp x (some c)⟩
    ∧ PyVec.binop op u (.arr ys)
        = .ok ⟨u.tag, List.zipWith (liftF2 op.interp) u.data ys⟩ := by
  have hlen : u.data.length = w.data.length := by rw [hu, hw, htag]
  have hsub : w.tag.isSubclass u.tag = true := by
    rw [htag]
    exact VecTag.isSubclass_self u.tag
  refine ⟨?_, ?_, ?_⟩
  · have hz : (List.zipWith (liftF2 op.interp) u.data w.data).length = u.tag.n := by
      rw [List.length_zipWith, hlen, Nat.min_self, hw, htag]
    simp only [PyVec.binop]
    rw [if_pos hsub]
    simp only [npBroadcast]
    rw [if_pos hlen]
    simp only [except_bind_ok, VectorND.init]
    rw [if_pos hz]
  · have hm : (u.data.map fun x => liftF2 op.interp x (some c)).length = u.tag.n := by
      rw [List.length_map, hu]
    simp only [PyVec.binop, VectorND.init]
    rw [if_pos hm]
  · have hz : (List.zipWith (liftF2 op.interp) u.data ys).length = u.tag.n := by
      rw [List.length_zipWith, hy, Nat.min_self, hu]
    simp only [PyVec.binop, npBroadcast]
    rw [if_pos hy.symm]
    simp only [except_bind_ok, VectorND.init]
    rw [if_pos hz]

/-- C9 witness: adding two concrete `Velocity` vectors, and a `Velocity`
and a scalar, yields `Velocity` results computed element-wise. -/
theorem operator_elementwise_type_preserving_witness :
    PyVec.binop .add ⟨.velocity, [some 1, some 2, some 3]⟩
        (.vec ⟨.velocity, [some 4, some 5, some 6]⟩)
      = .ok ⟨.velocity,
          List.zipWith (liftF2 PyOp.add.interp)
            [some 1, some 2, some 3] [some 4, some 5, some 6]⟩
    ∧ PyVec.binop .add ⟨.velocity, [some 1, some 2, some 3]⟩ (.scalar 7)
      = .ok ⟨.velocity,
          [some 1, some 2, some 3].map fun x => liftF2 PyOp.add.interp x (some 7)⟩ :=
  ⟨(operator_elementwise_type_preserving .add ⟨.velocity, [some 1, some 2, some 3]⟩
      ⟨.velocity, [some 4, some 5, some 6]⟩ 7 [some 0, some 0, some 0]
      rfl rfl rfl rfl).1,
   (operator_elementwise_type_preserving .add ⟨.velocity, [some 1, some 2, some 3]⟩
      ⟨.velocity, [some 4, some 5, some 6]⟩ 7 [some 0, some 0, some 0]
      rfl rfl rfl rfl).2.1⟩

/-- C7: the kelvin branch of `Temperature.celsius` returns
`value + 273.15` instead of the standard affine formula `value - 273.15`;
at `Temperature(0, "kelvin")` the code yields `273.15` where the claim
requires `0 - 273.15`. -/
theorem kelvin_to_celsius_sign_bug :
    Temperature.celsius ⟨0, "kelvin"⟩ = some (273.15 : ℝ)
    ∧ (273.15 : ℝ) ≠ 0 - 273.15
    ∧ Temperature.celsius ⟨(Temperature.kelvin ⟨0, "celsius"⟩).getD 0, "kelvin"⟩
        = some (546.3 : ℝ) := by
  refine ⟨?_, by norm_num, ?_⟩
  · simp only [Temperature.celsius]
    rw [if_neg (by decide), if_neg (by decide)]
    norm_num
  · simp only [Temperature.celsius, Temperature.kelvin]
    rw [if_neg (by decide), if_neg (by decide)]
    norm_num

/-- C8 counterexample: requesting a view for a system name outside the
declared set raises `AttributeError` (there is no such attribute on the
object) — it does not return a vector of nan sentinels. -/
theorem unknown_view_request_example :
    Coordinates2D.getattrView ⟨![some 3, some 4], "cartesian"⟩ "hyperbolic"
      = .error .attributeError
    ∧ (Except.error PyErr.attributeError : Except PyErr (Fin 2 → Option ℝ))
        ≠ .ok ![none, none] :=
  ⟨rfl, by simp⟩

/-- C8 amended: requesting a view for a target system name outside the
declared set raises `AttributeError` (no attribute of that name exists on
the instance); the nan-vector fallback in each view applies to the stored
system tag instead — a tag the validating constructor never admits — and
the declared view properties return all-nan vectors only for such an
unrecognized stored tag. -/
theorem unknown_view_attribute_error (s2 : Coordinates2D) (s3 : Coordinates3D)
    (name : String)
    (h : name ∉ ["cartesian", "polar", "cylindrical", "spherical", "n", "systems"])
    (h2 : s2.system ∉ Coordinates2D.systems) (h3 : s3.system ∉ Coordinates3D.systems) :
    Coordinates2D.getattrView s2 name = .error .attributeError
    ∧ Coordinates3D.getattrView s3 name = .error .attributeError
    ∧ s2.polar = ![none, none]
    ∧ s3.spherical = ![none, none, none] := by
  simp only [List.mem_cons, List.not_mem_nil, or_false, not_or] at h
  obtain ⟨hc, hp, hcy, hs, -, -⟩ := h
  simp only [Coordinates2D.systems, List.mem_cons, List.not_mem_nil, or_false,
    not_or] at h2
  simp only [Coordinates3D.systems, List.mem_cons, List.not_mem_nil, or_false,
    not_or] at h3
  refine ⟨?_, ?_, ?_, ?_⟩
  · simp [Coordinates2D.getattrView, hc, hp]
  · simp [Coordinates3D.getattrView, hc, hcy, hs]
  · simp [Coordinates2D.polar, h2.1, h2.2]
  · simp [Coordinates3D.spherical, h3.1, h3.2.1, h3.2.2]

/-- C8 witness: the amended behaviour at a concrete unknown view name and
a concrete unrecognized stored tag. -/
theorem unknown_view_attribute_error_witness :
    Coordinates2D.getattrView ⟨![some 1, some 2], "oblique"⟩ "hyperbolic"
      = .error .attributeError
    ∧ Coordinates3D.getattrView ⟨![some 1, some 2, some 3], "oblique"⟩ "hyperbolic"
      = .error .attributeError :=
  ⟨(unknown_view_attribute_error ⟨![some 1, some 2], "oblique"⟩
      ⟨![some 1, some 2, some 3], "oblique"⟩ "hyperbolic"
      (by simp) (by simp [Coordinates2D.systems]) (by simp [Coordinates3D.systems])).1,
   (unknown_view_attribute_error ⟨![some 1, some 2], "oblique"⟩
      ⟨![some 1, some 2, some 3], "oblique"⟩ "hyperbolic"
      (by simp) (by simp [Coordinates2D.systems]) (by simp [Coordinates3D.systems])).2.1⟩

/-- C3 (code bug): for the stored cylindrical triplet `(ρ, φ, z) = (3, 0, 4)`
the spherical view's first component is `sqrt(3 * 2 + 4²) = sqrt 22`
(the source multiplies `ρ` by `2` where its own inline comment prescribes
`ρ²`), which differs from the claimed `sqrt(ρ² + z²) = sqrt 25 = 5`. -/
theorem spherical_from_cylindrical_radius_bug :
    Coordinates3D.spherical ⟨![some 3, some 0, some 4], "cylindrical"⟩ 0
      = some (Real.sqrt 22)
    ∧ Real.sqrt 22 ≠ Real.sqrt ((3 : ℝ) ^ 2 + 4 ^ 2) := by
  constructor
  · simp only [Coordinates3D.spherical]
    rw [if_neg (by decide)]
    simp only [if_true, Matrix.cons_val_zero, Matrix.cons_val_two, Matrix.head_cons,
      Matrix.vecHead, Matrix.vecTail, liftF, liftF2, Option.map₂_some_some,
      Option.map_some']
    norm_num
  · have h25 : Real.sqrt ((3 : ℝ) ^ 2 + 4 ^ 2) = 5 := by
      rw [show (3 : ℝ) ^ 2 + 4 ^ 2 = 5 ^ 2 by norm_num]
      exact Real.sqrt_sq (by norm_num)
    rw [h25]
    have h22 : Real.sqrt 22 < 5 := by
      have h := Real.sqrt_lt_sqrt (by norm_num : (0 : ℝ) ≤ 22) (by norm_num : (22 : ℝ) < 25)
      rwa [show (25 : ℝ) = 5 ^ 2 by norm_num, Real.sqrt_sq (by norm_num)] at h
    exact ne_of_lt h22

/-- Helper for the polar round trip: for `x > 0`,
`sqrt(1 + (y/x)²) = sqrt(x² + y²) / x`. -/
theorem sqrt_one_add_div_sq (x y : ℝ) (hx : 0 < x) :
    Real.sqrt (1 + (y / x) ^ 2) = Real.sqrt (x ^ 2 + y ^ 2) / x := by
  rw [show 1 + (y / x) ^ 2 = (x ^ 2 + y ^ 2) / x ^ 2 by field_simp]
  rw [Real.sqrt_div (by positivity) (x ^ 2), Real.sqrt_sq hx.le]

/-- Helper for the polar round trip: for `x > 0`,
`sqrt(x² + y²) · cos(arctan(y/x)) = x`. -/
theorem sqrt_mul_cos_arctan (x y : ℝ) (hx : 0 < x) :
    Real.sqrt (x ^ 2 + y ^ 2) * Real.cos (Real.arctan (y / x)) = x := by
  have hS : 0 < Real.sqrt (x ^ 2 + y ^ 2) := Real.sqrt_pos.mpr (by positivity)
  rw [Real.cos_arctan, sqrt_one_add_div_sq x y hx]
  field_simp

/-- Helper for the polar round trip: for `x > 0`,
`sqrt(x² + y²) · sin(arctan(y/x)) = y`. -/
theorem sqrt_mul_sin_arctan (x y : ℝ) (hx : 0 < x) :
    Real.sqrt (x ^ 2 + y ^ 2) * Real.sin (Real.arctan (y / x)) = y := by
  have hS : 0 < Real.sqrt (x ^ 2 + y ^ 2) := Real.sqrt_pos.mpr (by positivity)
  rw [Real.sin_arctan, sqrt_one_add_div_sq x y hx]
  field_simp

/-- Evaluation of the cartesian→polar conversion formula on a stored
finite pair. -/
theorem polar_of_cartesian (x y : ℝ) :
    Coordinates2D.polar ⟨![some x, some y], "cartesian"⟩
      = ![some (Real.sqrt (x ^ 2 + y ^ 2)), some (Real.arctan (y / x))] := by
  simp only [Coordinates2D.polar, if_true, Matrix.cons_val_zero, Matrix.cons_val_one,
    Matrix.head_cons, liftF, liftF2, Option.map₂_some_some, Option.map_some']

/-- Evaluation of the polar→cartesian conversion formula on a stored
finite pair. -/
theorem cartesian_of_polar (r t : ℝ) :
    Coordinates2D.cartesian ⟨![some r, some t], "polar"⟩
      = ![some (r * Real.cos t), some (r * Real.sin t)] := by
  simp only [Coordinates2D.cartesian]
  rw [if_neg (show ¬("polar" = "cartesian") by decide)]
  simp only [if_true, Matrix.cons_val_zero, Matrix.cons_val_one, Matrix.head_cons,
    liftF, liftF2, Option.map₂_some_some, Option.map_some']

/-- C4 counterexample: at the non-degenerate cartesian pair `(-1, 0)` the
cartesian→polar→cartesian round trip returns `(1, 0)` — the
single-argument arctangent loses the quadrant for `x < 0` — and the
first-component deviation `|1 - (-1)| = 2` far exceeds the tolerance
`1e-9`. -/
theorem polar_round_trip_negative_x_example :
    Coordinates2D.cartesian
        ⟨Coordinates2D.polar ⟨![some (-1), some 0], "cartesian"⟩, "polar"⟩
      = ![some 1, some 0]
    ∧ ¬ |(1 : ℝ) - (-1)| ≤ 1e-9 := by
  constructor
  · rw [polar_of_cartesian, cartesian_of_polar]
    norm_num [Real.sqrt_one, Real.arctan_zero]
  · norm_num

/-- C4 amended: for every 2D cartesian pair `(x, y)` with `x > 0`, the
cartesian→polar→cartesian round trip reproduces `(x, y)` exactly — in
particular within the tolerance `1e-9`; for `x < 0` the round trip flips
the point (see the counterexample), because the polar angle uses the
single-argument arctangent. -/
theorem polar_round_trip_positive_x (x y : ℝ) (hx : 0 < x) :
    Coordinates2D.cartesian
        ⟨Coordinates2D.polar ⟨![some x, some y], "cartesian"⟩, "polar"⟩
      = ![some x, some y] := by
  rw [polar_of_cartesian, cartesian_of_polar,
    sqrt_mul_cos_arctan x y hx, sqrt_mul_sin_arctan x y hx]

/-- C4 witness: the amended round trip at the concrete pair `(3, 4)`. -/
theorem polar_round_trip_positive_x_witness :
    Coordinates2D.cartesian
        ⟨Coordinates2D.polar ⟨![some 3, some 4], "cartesian"⟩, "polar"⟩
      = ![some 3, some 4] :=
  polar_round_trip_positive_x 3 4 (by norm_num)
